import Mathlib

/-!
Verification development for the etok repository: a shallow embedding of
the workspace reconciliation engine (src/unnamed/part_000), the
workspace-creation client command (src/cmd/workspace/workspace_new.go) and,
where the repository ships only tests of a component, models built from the
specification text, together with theorems settling the specified
properties.
-/

namespace Etok

/-- Lexicographic comparison of character lists by code point, the order in
which Go's `sort.Strings` (used for backend-config keys) and the spec's
name-ascending tie-break compare strings. -/
def listCharLe : List Char → List Char → Bool
  | [], _ => true
  | _ :: _, [] => false
  | a :: as, b :: bs =>
    if a.toNat < b.toNat then true
    else if b.toNat < a.toNat then false
    else listCharLe as bs

/-- Lexicographic string comparison by code point. -/
def strLe (a b : String) : Bool := listCharLe a.data b.data

/-- A Command ("Run") object as stored in the cluster: its name, the label
linking it to a workspace, whether its Completed condition is true, and its
creation timestamp (as an abstract natural number). -/
structure Command where
  name : String
  workspace : String
  completed : Bool
  creation : Nat
deriving DecidableEq, Repr

/-- The Workspace object as the reconciler of src/unnamed/part_000 sees it:
identity plus the status queue (the only status field in
src/pkg/apis/stok/v1alpha1/workspace_types.go). -/
structure WorkspaceObj where
  name : String
  queue : List String
deriving DecidableEq, Repr

/-- The cluster state the reconciler of src/unnamed/part_000 reads and
writes: the requested workspace (none when it was deleted), whether its
persistent volume claim exists, and the full list of Command objects in the
namespace, in listing order. -/
structure Cluster where
  workspace : Option WorkspaceObj
  pvcExists : Bool
  commands : List Command
deriving DecidableEq, Repr

/-- The error the PVC create call can return when another actor created the
PVC between the reconciler's Get and its Create. -/
inductive ReconcileErr
  | alreadyExists
deriving DecidableEq, Repr

/-- Observable effects of one reconciliation pass: how many resource-create
calls were issued, whether commands were listed, how many status updates
were issued, and the returned error. -/
structure Effects where
  createCalls : Nat
  listedCommands : Bool
  statusUpdates : Nat
  error : Option ReconcileErr
deriving DecidableEq, Repr

/-- Embeds Reconcile from src/unnamed/part_000 (lines 101-159).
Steps, as in the source: fetch the workspace (not found means stop with no
error); Get the PVC; if it is absent, Create it and return at once (the
create's error, if any, is returned to the caller); otherwise List all
Command objects in the namespace and, when at least one exists, rebuild the
status queue from all their names in listing order and issue a status
update.  The `interference` flag models another actor creating the PVC
between the reconciler's Get and its Create, making the Create fail with an
already-exists error. -/
def reconcileEx (interference : Bool) (c : Cluster) : Cluster × Effects :=
  match c.workspace with
  | none => (c, ⟨0, false, 0, none⟩)
  | some ws =>
    if c.pvcExists then
      if c.commands.length > 0 then
        let q := c.commands.map (fun cmd => cmd.name)
        ({ c with workspace := some { ws with queue := q } }, ⟨0, true, 1, none⟩)
      else
        (c, ⟨0, true, 0, none⟩)
    else
      if interference then
        ({ c with pvcExists := true }, ⟨1, false, 0, some .alreadyExists⟩)
      else
        ({ c with pvcExists := true }, ⟨1, false, 0, none⟩)

/-- One reconciliation pass without interference from other actors. -/
def reconcile (c : Cluster) : Cluster × Effects := reconcileEx false c

/-- Creation-order relation used by the spec's Queue Builder for
newly-observed commands: creation timestamp ascending, ties broken by name
ascending. -/
def creationThenName (a b : Command) : Prop :=
  a.creation < b.creation ∨ (a.creation = b.creation ∧ strLe a.name b.name = true)

instance : DecidableRel creationThenName := fun a b =>
  inferInstanceAs
    (Decidable (a.creation < b.creation ∨ (a.creation = b.creation ∧ strLe a.name b.name = true)))

/-- Modelled from the spec: the Queue Builder of section 4.2, stated here
for comparison with the source reconciler.  Filter out commands not labeled
for this workspace and commands whose Completed condition is true; keep the
previous queue's order for names already present; append the rest sorted by
creation timestamp, ties broken by name. -/
def specQueue (wsName : String) (prev : List String) (cmds : List Command) :
    List String :=
  let live := cmds.filter (fun c => c.workspace == wsName && !c.completed)
  let names := live.map (fun c => c.name)
  let kept := prev.filter (fun n => names.contains n)
  let fresh := (live.filter (fun c => !prev.contains c.name)).insertionSort creationThenName
  kept ++ fresh.map (fun c => c.name)

/-- Command fixture: plan-1, labeled for workspace-1, not completed. -/
def plan1 : Command := ⟨"plan-1", "workspace-1", false, 1⟩

/-- Command fixture: plan-2, labeled for workspace-1, not completed. -/
def plan2 : Command := ⟨"plan-2", "workspace-1", false, 2⟩

/-- Command fixture: plan-3, labeled for a different workspace. -/
def plan3 : Command := ⟨"plan-3", "workspace-2", false, 3⟩

/-- Command fixture: plan-4, labeled for workspace-1, Completed true. -/
def plan4 : Command := ⟨"plan-4", "workspace-1", true, 4⟩

/-- Cluster fixture for queue filtering: workspace-1 with an empty queue and
an existing PVC, observing a foreign and a completed command besides two
live ones. -/
def clusterC1 : Cluster := ⟨some ⟨"workspace-1", []⟩, true, [plan1, plan2, plan3, plan4]⟩

/-- Cluster fixture for queue stability: workspace-1 whose previous queue
lists plan-2 before plan-1, both still live. -/
def clusterC2 : Cluster := ⟨some ⟨"workspace-1", ["plan-2", "plan-1"]⟩, true, [plan1, plan2]⟩

/-- Cluster fixture for a fresh workspace: the PVC does not exist yet and
one command is already waiting. -/
def clusterFresh : Cluster := ⟨some ⟨"workspace-1", []⟩, false, [plan1]⟩

/-- The Workspace cache spec of src/pkg/apis/stok/v1alpha1/workspace_types.go. -/
structure WorkspaceCacheSpec where
  storageClass : String
  size : String
deriving DecidableEq, Repr

/-- The Workspace spec of src/pkg/apis/stok/v1alpha1/workspace_types.go. -/
structure WorkspaceSpecCR where
  secretName : String
  cache : WorkspaceCacheSpec
deriving DecidableEq, Repr

/-- A Workspace custom resource: identity plus spec. -/
structure WorkspaceCR where
  name : String
  ns : String
  spec : WorkspaceSpecCR
deriving DecidableEq, Repr

/-- The fields of the persistent volume claim that
src/unnamed/part_000 populates.  `storageClassName` is an optional field of
the Kubernetes object; the source never sets it, leaving the zero value
(nil). -/
structure PVCObj where
  name : String
  ns : String
  appLabel : String
  accessModes : List String
  storageRequest : String
  storageClassName : Option String
deriving DecidableEq, Repr

/-- Embeds newPVCForCR from src/unnamed/part_000 (lines 161-182): the PVC is
named from the workspace name with a fixed suffix, placed in the workspace's
namespace, labeled app=name, given the ReadWriteOnce access mode and a fixed
1Gi storage request; no storage class is set. -/
def newPVCForCR (cr : WorkspaceCR) : PVCObj :=
  { name := cr.name ++ "-pvc"
    ns := cr.ns
    appLabel := cr.name
    accessModes := ["ReadWriteOnce"]
    storageRequest := "1Gi"
    storageClassName := none }

/-- Workspace fixture named foo with an entirely empty spec. -/
def crFoo : WorkspaceCR := ⟨"foo", "default", ⟨"", ⟨"", ""⟩⟩⟩

/-- Workspace fixture sharing crFoo's name but living in another namespace. -/
def crFooOther : WorkspaceCR := ⟨"foo", "other", ⟨"etok", ⟨"fast", "2Gi"⟩⟩⟩

/-- Embeds the storage-class flag handling of newCmd in
src/cmd/workspace/workspace_new.go (lines 118-122 and 153-155): the flag
carries a string value defaulting to the empty string, and when the flag was
not passed on the command line the workspace spec's storage-class field is
overridden to null. -/
def resolveStorageClass (flagPassed : Bool) (flagValue : String) : Option String :=
  if flagPassed then some flagValue else none

/-- Modelled from the spec: the health-condition computation of the
workspace reconciliation engine (section 4.3 step 2) is not among the
source files, only its tests are.  Healthy is false if a named secret or
service account is referenced but the referenced object does not exist, and
true otherwise. -/
def healthy (secretName serviceAccountName : String)
    (secretExists serviceAccountExists : Bool) : Bool :=
  !((secretName != "" && !secretExists) ||
    (serviceAccountName != "" && !serviceAccountExists))

/-- One rendered line of backend.ini: key, a tab, an equals sign and the
double-quoted value, ending in a newline. -/
def renderLine (kv : String × String) : String :=
  kv.1 ++ "\t= \"" ++ kv.2 ++ "\"\n"

/-- Ascending-key order on backend settings. -/
def keyLe (a b : String × String) : Prop := strLe a.1 b.1 = true

instance : DecidableRel keyLe := fun a b =>
  inferInstanceAs (Decidable (strLe a.1 b.1 = true))

instance : IsTrans (String × String) keyLe := by
  constructor
  have h : ∀ x y z : List Char,
      listCharLe x y = true → listCharLe y z = true → listCharLe x z = true := by
    intro x
    induction x with
    | nil => intro y z _ _; rfl
    | cons a as ih =>
      intro y z hxy hyz
      cases y with
      | nil => simp [listCharLe] at hxy
      | cons b bs =>
        cases z with
        | nil => simp [listCharLe] at hyz
        | cons c cs =>
          simp only [listCharLe] at hxy hyz ⊢
          rcases Nat.lt_trichotomy a.toNat b.toNat with h1 | h1 | h1
          · rcases Nat.lt_trichotomy b.toNat c.toNat with h2 | h2 | h2
            · simp [Nat.lt_trans h1 h2]
            · simp [h2 ▸ h1]
            · simp [Nat.lt_asymm h2, h2] at hyz
          · rcases Nat.lt_trichotomy b.toNat c.toNat with h2 | h2 | h2
            · simp [h1 ▸ h2]
            · have h3 : ¬ a.toNat < c.toNat := by omega
              have h4 : ¬ c.toNat < a.toNat := by omega
              simp [Nat.lt_irrefl, h1] at hxy
              simp [Nat.lt_irrefl, h2] at hyz
              simp [h3, h4]
              exact ih _ _ hxy hyz
            · simp [Nat.lt_asymm h2, h2] at hyz
          · simp [Nat.lt_asymm h1, h1] at hxy
  intro a b c hab hbc
  exact h _ _ _ hab hbc

instance : IsTotal (String × String) keyLe := by
  constructor
  have h : ∀ x y : List Char, listCharLe x y = true ∨ listCharLe y x = true := by
    intro x
    induction x with
    | nil => intro y; left; rfl
    | cons a as ih =>
      intro y
      cases y with
      | nil => right; rfl
      | cons b bs =>
        simp only [listCharLe]
        rcases Nat.lt_trichotomy a.toNat b.toNat with h1 | h1 | h1
        · left; simp [h1]
        · have h3 : ¬ a.toNat < b.toNat := by omega
          have h4 : ¬ b.toNat < a.toNat := by omega
          rcases ih bs with h5 | h5
          · left; simp [h3, h4, h5]
          · right; simp [h3, h4, h5]
        · right; simp [h1]
  intro a b
  exact h _ _

/-- Modelled from the spec: the backend config-map synthesizer (section 4.1)
is not among the source files, only its tests are.  backend.ini renders one
line per backend setting in ascending key order, the empty string when
there are no settings. -/
def backendIni (cfg : List (String × String)) : String :=
  String.join ((List.insertionSort keyLe cfg).map renderLine)

/-- Modelled from the spec: backend.tf is a minimal terraform block naming
the backend type (section 4.1), matching the repository's controller tests
character for character. -/
def backendTf (btype : String) : String :=
  "terraform \x7b\n  backend \"" ++ btype ++ "\" \x7b\x7d\n\x7d\n"

/-- A resource kind the workspace-creation client may create and delete. -/
inductive Res
  | serviceAccount
  | secret
  | workspace
deriving DecidableEq, Repr

/-- The distinct failure points of the workspace-creation client command
(src/cmd/workspace/workspace_new.go): a non-not-found error retrieving the
service account or secret, a failed create of the service account, secret or
workspace, or a failure in the wait/stream/exit-code phase after creation. -/
inductive NewErr
  | saGet
  | saCreate
  | secretGet
  | secretCreate
  | wsCreate
  | wait
deriving DecidableEq, Repr

/-- The environment a run of the workspace-creation command observes:
whether the service account and secret pre-exist, whether the Get calls for
them fail with a non-not-found error, and whether each create call and the
post-creation wait phase succeed. -/
structure NewEnv where
  saExists : Bool
  saGetErr : Bool
  saCreateOk : Bool
  secretExists : Bool
  secretGetErr : Bool
  secretCreateOk : Bool
  wsCreateOk : Bool
  waitOk : Bool
deriving DecidableEq, Repr

/-- The created-resource flags the client records
(src/cmd/workspace/workspace_new.go lines 78-81). -/
structure NewState where
  createdWorkspace : Bool
  createdServiceAccount : Bool
  createdSecret : Bool
deriving DecidableEq, Repr

/-- Embeds the run method of the workspace-creation command
(src/cmd/workspace/workspace_new.go lines 170-240 with
createServiceAccountIfMissing, createSecretIfMissing and createWorkspace):
unless disabled, the service account and then the secret are created when
absent, recording a created flag for each; then the workspace object is
created and its flag recorded; then the waits, log streaming and exit-code
recovery run.  The result is the recorded flags, the chronological list of
resources created by this invocation, and the error of the first failing
step, if any. -/
def runNew (disableCreateServiceAccount disableCreateSecret : Bool) (env : NewEnv) :
    NewState × List Res × Option NewErr :=
  if !disableCreateServiceAccount && env.saGetErr then
    (⟨false, false, false⟩, [], some NewErr.saGet)
  else if !disableCreateServiceAccount && !env.saExists && !env.saCreateOk then
    (⟨false, false, false⟩, [], some NewErr.saCreate)
  else
    let sa : Bool := !disableCreateServiceAccount && !env.saExists
    let saCr : List Res := if sa then [Res.serviceAccount] else []
    if !disableCreateSecret && env.secretGetErr then
      (⟨false, sa, false⟩, saCr, some NewErr.secretGet)
    else if !disableCreateSecret && !env.secretExists && !env.secretCreateOk then
      (⟨false, sa, false⟩, saCr, some NewErr.secretCreate)
    else
      let sec : Bool := !disableCreateSecret && !env.secretExists
      let cr2 : List Res := saCr ++ (if sec then [Res.secret] else [])
      if !env.wsCreateOk then
        (⟨false, sa, sec⟩, cr2, some NewErr.wsCreate)
      else
        let cr3 : List Res := cr2 ++ [Res.workspace]
        if !env.waitOk then
          (⟨true, sa, sec⟩, cr3, some NewErr.wait)
        else
          (⟨true, sa, sec⟩, cr3, none)

/-- Environment fixture: the secret pre-exists, the service account and the
workspace are created by this invocation, and the wait phase then fails. -/
def envW : NewEnv := ⟨false, false, true, true, false, true, true, false⟩

/-- Embeds the cleanup method (src/cmd/workspace/workspace_new.go lines
242-252): delete the workspace, then the secret, then the service account,
each only if its created flag is set; the source discards each delete call's
error, so deletions produce no error here. -/
def cleanupDeletes (s : NewState) : List Res :=
  (if s.createdWorkspace then [Res.workspace] else []) ++
  (if s.createdSecret then [Res.secret] else []) ++
  (if s.createdServiceAccount then [Res.serviceAccount] else [])

/-- Embeds the RunE wrapper of newCmd (src/cmd/workspace/workspace_new.go
lines 129-135): run, and on error invoke cleanup unless resource cleanup is
disabled by flag; the error returned to the user is the run's own error. -/
def runE (disableCreateServiceAccount disableCreateSecret disableResourceCleanup : Bool)
    (env : NewEnv) : Option NewErr × List Res :=
  let r := runNew disableCreateServiceAccount disableCreateSecret env
  match r.2.2 with
  | none => (none, [])
  | some e => (some e, if disableResourceCleanup then [] else cleanupDeletes r.1)

/-- Claim C1: the reconciler's status queue is supposed to contain exactly
the names of the not-completed commands labeled for this workspace.  The
source reconciler lists every Command in the namespace with no label
selector and no Completed filter and rebuilds the queue from all their
names: reconciling workspace-1 over plan-1, plan-2, a command labeled for
workspace-2 and a Completed command yields a queue holding all four names,
while the spec's Queue Builder yields only plan-1 and plan-2. -/
theorem c1_queue_unfiltered :
    (reconcile clusterC1).1.workspace =
      some ⟨"workspace-1", ["plan-1", "plan-2", "plan-3", "plan-4"]⟩
    ∧ plan3.workspace = "workspace-2"
    ∧ plan4.completed = true
    ∧ specQueue "workspace-1" [] clusterC1.commands = ["plan-1", "plan-2"] := by
  decide

/-- Claim C2: the new queue is supposed to preserve the relative order of
names already present in the previous queue.  The source reconciler ignores
the previous queue and rebuilds it from the listing order of all commands:
with previous queue plan-2 then plan-1, both commands still live, the source
yields plan-1 then plan-2 while the spec's Queue Builder keeps plan-2 then
plan-1. -/
theorem c2_queue_reshuffled :
    (reconcile clusterC2).1.workspace = some ⟨"workspace-1", ["plan-1", "plan-2"]⟩
    ∧ specQueue "workspace-1" ["plan-2", "plan-1"] clusterC2.commands
        = ["plan-2", "plan-1"]
    ∧ (["plan-1", "plan-2"] : List String) ≠ ["plan-2", "plan-1"] := by
  decide

/-- Claim C3, counterexample: on a fresh workspace whose PVC does not exist
yet and with one command waiting, the first reconciliation creates the PVC
and returns without touching the status, and the second reconciliation then
writes the queue, so the status after the second pass differs from the
status after the first pass. -/
theorem c3_counterexample :
    (reconcile (reconcile clusterFresh).1).1.workspace
      ≠ (reconcile clusterFresh).1.workspace := by
  decide

/-- Claim C3, amended: the second of two consecutive reconciliations issues
no resource-creation call; and whenever the cache volume claim already
existed before the first pass, the workspace object after the second pass
equals the workspace object after the first pass. -/
theorem c3_second_pass (c : Cluster) :
    (reconcile (reconcile c).1).2.createCalls = 0
    ∧ (c.pvcExists = true →
        (reconcile (reconcile c).1).1.workspace = (reconcile c).1.workspace) := by
  obtain ⟨ws, pvc, cmds⟩ := c
  cases ws with
  | none => simp [reconcile, reconcileEx]
  | some w =>
    cases pvc with
    | false =>
      by_cases h : cmds.length > 0 <;>
        simp [reconcile, reconcileEx, h]
    | true =>
      by_cases h : cmds.length > 0 <;>
        simp [reconcile, reconcileEx, h]

/-- Claim C3, witness: the amended statement instantiated on the cluster
fixture whose PVC already exists. -/
theorem c3_second_pass_witness :
    (reconcile (reconcile clusterC1).1).2.createCalls = 0
    ∧ (reconcile (reconcile clusterC1).1).1.workspace = (reconcile clusterC1).1.workspace :=
  ⟨(c3_second_pass clusterC1).1, (c3_second_pass clusterC1).2 rfl⟩

/-- Claim C4, counterexample: when another actor creates the PVC between the
reconciler's Get and its Create, the Create fails already-exists and the
source reconciler returns that error to its caller instead of treating it
as success. -/
theorem c4_counterexample :
    (reconcileEx true clusterFresh).2.error ≠ none := by
  decide

/-- Claim C4, amended: when the Create of the cache volume claim fails
because another actor created it between the reconciler's existence check
and its create call, the reconciler returns the already-exists error to its
caller, triggering a retry, rather than treating it as success. -/
theorem c4_alreadyExists_propagated (c : Cluster) (w : WorkspaceObj)
    (hw : c.workspace = some w) (hp : c.pvcExists = false) :
    (reconcileEx true c).2.error = some ReconcileErr.alreadyExists
    ∧ (reconcileEx true c).2.createCalls = 1 := by
  obtain ⟨ws, pvc, cmds⟩ := c
  simp only at hw hp
  subst hw
  subst hp
  simp [reconcileEx]

/-- Claim C4, witness: the amended statement instantiated on the fresh
cluster fixture. -/
theorem c4_alreadyExists_propagated_witness :
    (reconcileEx true clusterFresh).2.error = some ReconcileErr.alreadyExists
    ∧ (reconcileEx true clusterFresh).2.createCalls = 1 :=
  c4_alreadyExists_propagated clusterFresh ⟨"workspace-1", []⟩ rfl rfl

/-- Claim C10: on the pass in which the cache volume claim does not exist
and is created, the reconciler issues exactly one create, does not list
commands, writes no status update, and leaves the workspace object
untouched. -/
theorem c10_create_then_return (c : Cluster) (w : WorkspaceObj)
    (hw : c.workspace = some w) (hp : c.pvcExists = false) :
    (reconcile c).2.createCalls = 1
    ∧ (reconcile c).2.listedCommands = false
    ∧ (reconcile c).2.statusUpdates = 0
    ∧ (reconcile c).1.workspace = c.workspace := by
  obtain ⟨ws, pvc, cmds⟩ := c
  simp only at hw hp
  subst hw
  subst hp
  simp [reconcile, reconcileEx]

/-- Claim C10, witness: the frame statement instantiated on the fresh
cluster fixture. -/
theorem c10_create_then_return_witness :
    (reconcile clusterFresh).2.createCalls = 1
    ∧ (reconcile clusterFresh).2.listedCommands = false
    ∧ (reconcile clusterFresh).2.statusUpdates = 0
    ∧ (reconcile clusterFresh).1.workspace = clusterFresh.workspace :=
  c10_create_then_return clusterFresh ⟨"workspace-1", []⟩ rfl rfl

/-- Claim C5: after reconciliation the Healthy condition is false exactly
when a named secret or a named service account is referenced but the
referenced object does not exist, and a workspace referencing neither gets
Healthy true. -/
theorem c5_healthy (sn sa : String) (se sae : Bool) :
    (healthy sn sa se sae = false
      ↔ ((sn ≠ "" ∧ se = false) ∨ (sa ≠ "" ∧ sae = false)))
    ∧ (sn = "" → sa = "" → healthy sn sa se sae = true) := by
  constructor
  · by_cases h1 : sn = "" <;> by_cases h2 : sa = "" <;> cases se <;> cases sae <;>
      simp [healthy, h1, h2]
  · intro h1 h2
    simp [healthy, h1, h2]

/-- Claim C5, witness: a workspace referencing a missing secret is
unhealthy; one referencing neither secret nor service account is healthy. -/
theorem c5_healthy_witness :
    healthy "etok" "" false true = false ∧ healthy "" "" false false = true :=
  ⟨(c5_healthy "etok" "" false true).1.mpr (Or.inl ⟨by decide, rfl⟩),
   (c5_healthy "" "" false false).2 rfl rfl⟩

/-- Claim C6: a workspace whose cache size is unset gets a PVC requesting
exactly 1Gi (the source requests 1Gi unconditionally), and the
storage-class flag handling keeps unset (null), explicit-empty and named
storage classes as three distinct states. -/
theorem c6_cache_defaults :
    (∀ cr : WorkspaceCR, cr.spec.cache.size = "" →
      (newPVCForCR cr).storageRequest = "1Gi")
    ∧ (∀ v, resolveStorageClass false v = none)
    ∧ resolveStorageClass true "" = some ""
    ∧ (∀ s, resolveStorageClass false s ≠ some "")
    ∧ (∀ s, s ≠ "" →
        resolveStorageClass true s ≠ some "" ∧ resolveStorageClass true s ≠ none) := by
  refine ⟨fun cr _ => rfl, fun v => rfl, rfl,
    fun s => by simp [resolveStorageClass],
    fun s hs => by simp [resolveStorageClass, hs]⟩

/-- Claim C6, witness: the defaults evaluated on the foo fixture and on a
named storage class. -/
theorem c6_cache_defaults_witness :
    (newPVCForCR crFoo).storageRequest = "1Gi"
    ∧ resolveStorageClass false "fast" = none
    ∧ resolveStorageClass true "" = some ""
    ∧ resolveStorageClass true "fast" ≠ some ""
    ∧ resolveStorageClass true "fast" ≠ none :=
  ⟨c6_cache_defaults.1 crFoo rfl, c6_cache_defaults.2.1 "fast",
   c6_cache_defaults.2.2.1,
   (c6_cache_defaults.2.2.2.2 "fast" (by decide)).1,
   (c6_cache_defaults.2.2.2.2 "fast" (by decide)).2⟩

/-- Claim C7: backend.ini renders one tab-separated quoted line per backend
setting in ascending key order and is empty without settings, while
backend.tf is a minimal terraform block naming the backend type; the gcs
example renders bucket before prefix even when given in the opposite order,
and the local example with no settings renders an empty backend.ini. -/
theorem c7_backend_rendering :
    backendIni [] = ""
    ∧ (∀ cfg : List (String × String), List.Sorted keyLe (List.insertionSort keyLe cfg))
    ∧ (∀ cfg : List (String × String),
        (List.insertionSort keyLe cfg).length = cfg.length
        ∧ (List.insertionSort keyLe cfg).Perm cfg)
    ∧ (∀ cfg, backendIni cfg = String.join ((List.insertionSort keyLe cfg).map renderLine))
    ∧ backendIni [("prefix", "dev"), ("bucket", "workspace-1-state")]
        = "bucket\t= \"workspace-1-state\"\nprefix\t= \"dev\"\n"
    ∧ backendTf "gcs" = "terraform \x7b\n  backend \"gcs\" \x7b\x7d\n\x7d\n"
    ∧ backendTf "local" = "terraform \x7b\n  backend \"local\" \x7b\x7d\n\x7d\n" := by
  refine ⟨rfl,
    fun cfg => List.sorted_insertionSort keyLe cfg,
    fun cfg => ⟨(List.perm_insertionSort keyLe cfg).length_eq, List.perm_insertionSort keyLe cfg⟩,
    fun cfg => rfl,
    by decide, rfl, rfl⟩

/-- Claim C8, counterexample: the PVC synthesized for a workspace named foo
is named foo-pvc, not workspace-foo. -/
theorem c8_counterexample :
    (newPVCForCR crFoo).name = "foo-pvc"
    ∧ (newPVCForCR crFoo).name ≠ "workspace-" ++ crFoo.name := by
  decide

/-- Claim C8, amended: the dependent resource the source reconciler
creates, the cache volume claim, is named deterministically from the
workspace name alone following the name-pvc pattern, so its existence can
always be resolved from the workspace name. -/
theorem c8_amended (cr cr' : WorkspaceCR) (h : cr.name = cr'.name) :
    (newPVCForCR cr).name = cr.name ++ "-pvc"
    ∧ (newPVCForCR cr).name = (newPVCForCR cr').name :=
  ⟨rfl, by simp [newPVCForCR, h]⟩

/-- Claim C8, witness: two workspaces sharing the name foo but nothing else
get the same PVC name. -/
theorem c8_amended_witness :
    (newPVCForCR crFoo).name = crFoo.name ++ "-pvc"
    ∧ (newPVCForCR crFoo).name = (newPVCForCR crFooOther).name :=
  c8_amended crFoo crFooOther rfl

/-- Claim C9: on every failed invocation of the workspace-creation command,
unless cleanup is disabled by flag, the client deletes exactly the
resources created in that invocation in reverse creation order, the error
returned is the run's original failure, and pre-existing resources are
never deleted; nothing is deleted on success or when cleanup is disabled. -/
theorem c9_cleanup (dsa dsec dclean e1 e2 e3 e4 e5 e6 e7 e8 : Bool) :
    (runE dsa dsec dclean ⟨e1, e2, e3, e4, e5, e6, e7, e8⟩).1
        = (runNew dsa dsec ⟨e1, e2, e3, e4, e5, e6, e7, e8⟩).2.2
    ∧ ((runNew dsa dsec ⟨e1, e2, e3, e4, e5, e6, e7, e8⟩).2.2 = none →
        (runE dsa dsec dclean ⟨e1, e2, e3, e4, e5, e6, e7, e8⟩).2 = [])
    ∧ (dclean = true → (runE dsa dsec dclean ⟨e1, e2, e3, e4, e5, e6, e7, e8⟩).2 = [])
    ∧ ((runNew dsa dsec ⟨e1, e2, e3, e4, e5, e6, e7, e8⟩).2.2 ≠ none → dclean = false →
        (runE dsa dsec dclean ⟨e1, e2, e3, e4, e5, e6, e7, e8⟩).2
          = ((runNew dsa dsec ⟨e1, e2, e3, e4, e5, e6, e7, e8⟩).2.1).reverse)
    ∧ (e1 = true →
        Res.serviceAccount ∉ (runE dsa dsec dclean ⟨e1, e2, e3, e4, e5, e6, e7, e8⟩).2)
    ∧ (e4 = true →
        Res.secret ∉ (runE dsa dsec dclean ⟨e1, e2, e3, e4, e5, e6, e7, e8⟩).2) := by
  revert dsa dsec dclean e1 e2 e3 e4 e5 e6 e7 e8
  decide

/-- Claim C9, witness: with the secret pre-existing and the wait phase
failing, the reported error is the wait failure and the deletions are the
workspace then the service account, the reverse of their creation order,
with the pre-existing secret untouched. -/
theorem c9_cleanup_witness :
    (runE false false false envW).1 = (runNew false false envW).2.2
    ∧ (runE false false false envW).2 = ((runNew false false envW).2.1).reverse
    ∧ Res.secret ∉ (runE false false false envW).2 :=
  ⟨(c9_cleanup false false false false false true true false true true false).1,
   (c9_cleanup false false false false false true true false true true false).2.2.2.1
     (by decide) rfl,
   (c9_cleanup false false false false false true true false true true false).2.2.2.2.2 rfl⟩

end Etok
